import Mathlib

/-!
Shallow embedding of the nodeAPI HTTP service (index.js, middleware/auth.js,
routes/auth.js) and proofs about its request-validation, authorization-gating
and response-envelope behaviour.

Modelling conventions:
- JavaScript strings handled by the palindrome endpoints are lists of UTF-16
  code units (the granularity of the source's split-reverse-join).
- A JSON response body is a value of the inductive type Js; a response is a
  status code paired with a body.
- The external Firebase collaborator (token verification, user creation,
  Firestore reads/writes) is an oracle passed as an argument; each handler
  also returns the ordered list of collaborator calls it issued, so that
  claims about which calls are (not) made are statements about that list.
- A JavaScript value that may be undefined is an Option; none is undefined.
-/

/-- JSON values as produced by the service's response builders. -/
inductive Js where
  | null : Js
  | undef : Js
  | str : String → Js
  | ustr : List Nat → Js
  | bool : Bool → Js
  | obj : List (String × Js) → Js

/-- Does a JSON object have a field with the given key? -/
def Js.hasField : Js → String → Bool
  | .obj fs, k => fs.any (fun p => p.1 == k)
  | _, _ => false

/-- An HTTP response: a status code and a JSON body. -/
structure Resp where
  status : Nat
  body : Js

/-- A JavaScript string as the UTF-16 code-unit list that split-reverse-join
operates on. -/
abbrev JsStr := List Nat

/-- Embedding of the reversal used by both palindrome endpoints:
word.split-reverse-join over code units (index.js lines 141 and 182). -/
def reverseWord (w : JsStr) : JsStr :=
  w.reverse

/-- Embedding of the POST palindrome handler (index.js lines 134-147).
The argument is the word field of the request body: none when absent.
A present empty string is falsy in JavaScript, so it also takes the 400
branch. -/
def palindromePost (word : Option JsStr) : Resp :=
  match word with
  | none => ⟨400, .obj [("error", .str "Please provide a word")]⟩
  | some w =>
    if w.isEmpty then
      ⟨400, .obj [("error", .str "Please provide a word")]⟩
    else
      ⟨200, .obj [("original", .ustr w), ("palindrome", .ustr (reverseWord w))]⟩

/-- Embedding of the GET palindrome handler (index.js lines 180-188); the
path segment is always present. -/
def palindromeGet (word : JsStr) : Resp :=
  ⟨200, .obj [("original", .ustr word), ("palindrome", .ustr (reverseWord word))]⟩

/-- Embedding of the global error-handling middleware (index.js
lines 190-194). -/
def errorHandler : Resp :=
  ⟨500, .obj [("error", .str "Something went wrong!")]⟩

/-- Code units of the string hello. -/
def helloUnits : JsStr := [104, 101, 108, 108, 111]

/-- Code units of the string olleh. -/
def ollehUnits : JsStr := [111, 108, 108, 101, 104]

/-- The decoded token returned by the collaborator's verifyIdToken. -/
structure DecodedToken where
  uid : String
  email : Option String
  email_verified : Bool
  uname : Option String
  picture : Option String

/-- The resolved identity the gate attaches to the request (req.user,
middleware/auth.js lines 25-31). -/
structure Identity where
  uid : String
  email : Option String
  emailVerified : Bool
  uname : Option String
  picture : Option String

/-- Outcome of one call to the collaborator's verifyIdToken: success with a
decoded token, a rejection because the token is invalid or expired, or a
non-verification (transport-level) fault. In the source both failure kinds
are promise rejections, indistinguishable to the caller. -/
inductive VerifyOutcome where
  | ok : DecodedToken → VerifyOutcome
  | invalidToken : VerifyOutcome
  | transportFault : VerifyOutcome

/-- Result of the mandatory authorization gate: a terminal rejection
response, or proceeding to the handler with an attached identity. -/
inductive GateResult where
  | reject : Resp → GateResult
  | proceed : Identity → GateResult

/-- The 401 response for a missing or non-Bearer Authorization header
(middleware/auth.js lines 12-15). -/
def noTokenResp : Resp :=
  ⟨401, .obj [("error", .str "No token provided"),
              ("message", .str "Authorization header with Bearer token is required")]⟩

/-- The 401 response when token verification fails
(middleware/auth.js lines 36-39). -/
def invalidTokenResp : Resp :=
  ⟨401, .obj [("error", .str "Invalid token"),
              ("message", .str "The provided token is invalid or expired")]⟩

/-- The 500 response of the middleware's outer catch
(middleware/auth.js lines 43-46); reachable only by a failure outside the
inner try block around the verification call. -/
def authErrorResp : Resp :=
  ⟨500, .obj [("error", .str "Authentication error"),
              ("message", .str "An error occurred during authentication")]⟩

/-- Identity built from a decoded token (middleware/auth.js lines 25-31). -/
def identityOf (d : DecodedToken) : Identity :=
  ⟨d.uid, d.email, d.email_verified, d.uname, d.picture⟩

/-- The Bearer-scheme check: authHeader.startsWith of the Bearer marker
(middleware/auth.js line 11), read as a prefix test on the character
sequence. -/
def hasBearerMarker (h : String) : Bool :=
  "Bearer ".data.isPrefixOf h.data

/-- Token extraction: authHeader.split on the Bearer marker, index 1
(middleware/auth.js line 18). -/
def bearerToken (h : String) : String :=
  (h.splitOn "Bearer ").getD 1 ""

/-- Embedding of the mandatory gate verifyToken (middleware/auth.js
lines 7-48). The inner catch of the source catches every rejection of the
verification call, so both invalidToken and transportFault map to the 401
invalid-token response. -/
def verifyToken (authHeader : Option String) (verify : String → VerifyOutcome) :
    GateResult :=
  match authHeader with
  | none => .reject noTokenResp
  | some h =>
    if hasBearerMarker h then
      match verify (bearerToken h) with
      | .ok d => .proceed (identityOf d)
      | .invalidToken => .reject invalidTokenResp
      | .transportFault => .reject invalidTokenResp
    else
      .reject noTokenResp

/-- JavaScript falsiness of an optional string field: undefined or empty. -/
def strFalsy : Option String → Bool
  | none => true
  | some s => s.isEmpty

/-- The JavaScript idiom v-or-undefined (and v-or-null): a falsy value is
replaced by none (standing for undefined or null as context dictates). -/
def falsyToNone (o : Option String) : Option String :=
  if strFalsy o then none else o

/-- JSON value of an optional string where absence is rendered null. -/
def jsOrNull : Option String → Js
  | none => .null
  | some s => .str s

/-- JSON value of an optional string where absence means the field was
assigned undefined in the source object. -/
def jsOrUndef : Option String → Js
  | none => .undef
  | some s => .str s

/-- Arguments the register handler passes to the collaborator's createUser
(routes/auth.js lines 108-114). -/
structure CreateArgs where
  email : String
  password : String
  displayName : Option String
  photoURL : Option String
  emailVerified : Bool

/-- The user record the collaborator returns from createUser. -/
structure UserRecord where
  uid : String
  email : Option String
  displayName : Option String
  photoURL : Option String
  emailVerified : Bool

/-- Failure modes of the collaborator's createUser: the email-already-exists
error code the handler inspects, or any other fault. -/
inductive CreateErr where
  | emailAlreadyExists
  | otherFault

/-- The nested profile sub-object of a user document. -/
structure Profile where
  bio : String
  preferences : Js

/-- The Firestore user document (routes/auth.js lines 117-129); none in
displayName or photoURL stands for a stored null, and lastUpdatedAt is
absent until the first profile update. -/
structure UserDoc where
  uid : String
  email : Option String
  displayName : Option String
  photoURL : Option String
  emailVerified : Bool
  createdAt : String
  lastLoginAt : String
  profile : Profile
  lastUpdatedAt : Option String

/-- The fields the update handler passes to the collaborator's updateUser
(routes/auth.js lines 260-268). -/
structure AuthUpdates where
  displayName : Option String
  photoURL : Option String

/-- The updates object the update handler passes to the Firestore update
call (routes/auth.js lines 255-279); none means the key was not added. -/
structure UpdateRec where
  lastUpdatedAt : String
  displayName : Option String
  photoURL : Option String
  profileBio : Option String
  profilePreferences : Option Js

/-- One call to the external collaborator, with its payload. -/
inductive CollabCall where
  | verifyIdToken : String → CollabCall
  | createUser : CreateArgs → CollabCall
  | updateUser : String → AuthUpdates → CollabCall
  | deleteUser : String → CollabCall
  | getDoc : String → CollabCall
  | setDoc : String → UserDoc → CollabCall
  | updateDoc : String → UpdateRec → CollabCall
  | deleteDoc : String → CollabCall

/-- JSON rendering of a user document as returned by userDoc.data(). -/
def userDocToJs (d : UserDoc) : Js :=
  .obj ([("uid", .str d.uid),
         ("email", jsOrUndef d.email),
         ("displayName", jsOrNull d.displayName),
         ("photoURL", jsOrNull d.photoURL),
         ("emailVerified", .bool d.emailVerified),
         ("createdAt", .str d.createdAt),
         ("lastLoginAt", .str d.lastLoginAt),
         ("profile", .obj [("bio", .str d.profile.bio),
                           ("preferences", d.profile.preferences)])]
    ++ (match d.lastUpdatedAt with
        | none => []
        | some t => [("lastUpdatedAt", .str t)]))

/-- The 400 response for a registration with missing email or password
(routes/auth.js lines 93-96). -/
def missingFieldsResp : Resp :=
  ⟨400, .obj [("error", .str "Missing required fields"),
              ("message", .str "Email and password are required")]⟩

/-- The 400 response for a registration password shorter than 6 characters
(routes/auth.js lines 100-103). -/
def passwordTooShortResp : Resp :=
  ⟨400, .obj [("error", .str "Password too short"),
              ("message", .str "Password must be at least 6 characters long")]⟩

/-- The 409 response when createUser fails with the email-already-exists
code (routes/auth.js lines 145-148). -/
def userExistsResp : Resp :=
  ⟨409, .obj [("error", .str "User already exists"),
              ("message", .str "An account with this email already exists")]⟩

/-- The 500 response of the register handler's outer catch
(routes/auth.js lines 154-157). -/
def registrationFailedResp : Resp :=
  ⟨500, .obj [("error", .str "Registration failed"),
              ("message", .str "An error occurred during registration")]⟩

/-- The createUser arguments the register handler builds from a validated
body (routes/auth.js lines 108-114): the or-undefined coercion applies to
the optional fields and the email is marked unverified. -/
def regArgs (email password displayName photoURL : Option String) : CreateArgs :=
  ⟨email.getD "", password.getD "",
   falsyToNone displayName, falsyToNone photoURL, false⟩

/-- The Firestore user document the register handler writes
(routes/auth.js lines 117-129): uid and email echoed from the created
record, or-null coercion on the optional fields, both timestamps set to
now, an empty bio and empty preferences. -/
def regDoc (displayName photoURL : Option String) (urec : UserRecord)
    (now : String) : UserDoc :=
  ⟨urec.uid, urec.email, falsyToNone displayName, falsyToNone photoURL,
   false, now, now, ⟨"", .obj []⟩, none⟩

/-- Embedding of the POST register handler (routes/auth.js lines 88-159).
Body fields are none when absent; createUser is the collaborator oracle;
setDocOk injects the outcome of the Firestore set call (a Firestore fault
carries no email-already-exists code, so the inner catch rethrows it to the
outer catch); now is the current timestamp. Returns the response and the
ordered collaborator calls made. -/
def registerHandler (email password displayName photoURL : Option String)
    (createUser : CreateArgs → Except CreateErr UserRecord)
    (setDocOk : Bool) (now : String) : Resp × List CollabCall :=
  if strFalsy email || strFalsy password then
    (missingFieldsResp, [])
  else if (password.getD "").length < 6 then
    (passwordTooShortResp, [])
  else
    let args : CreateArgs := regArgs email password displayName photoURL
    match createUser args with
    | .error .emailAlreadyExists => (userExistsResp, [.createUser args])
    | .error .otherFault => (registrationFailedResp, [.createUser args])
    | .ok urec =>
      let userData : UserDoc := regDoc displayName photoURL urec now
      if setDocOk then
        (⟨201, .obj [("message", .str "User created successfully"),
            ("user", .obj [("uid", .str urec.uid),
                           ("email", jsOrUndef urec.email),
                           ("displayName", jsOrNull (falsyToNone urec.displayName)),
                           ("photoURL", jsOrNull (falsyToNone urec.photoURL)),
                           ("emailVerified", .bool urec.emailVerified)])]⟩,
         [.createUser args, .setDoc urec.uid userData])
      else
        (registrationFailedResp, [.createUser args, .setDoc urec.uid userData])

/-- The 404 response of the get-user handler (routes/auth.js lines 191-194). -/
def userNotFoundResp : Resp :=
  ⟨404, .obj [("error", .str "User not found"),
              ("message", .str "User profile not found in database")]⟩

/-- The 500 response of the get-user handler (routes/auth.js lines 201-204). -/
def getUserFailResp : Resp :=
  ⟨500, .obj [("error", .str "Failed to get user"),
              ("message", .str "An error occurred while fetching user data")]⟩

/-- The 500 response of the update-user handler (routes/auth.js
lines 294-297). -/
def updateUserFailResp : Resp :=
  ⟨500, .obj [("error", .str "Failed to update user"),
              ("message", .str "An error occurred while updating user data")]⟩

/-- The 500 response of the delete-user handler (routes/auth.js
lines 338-341). -/
def deleteUserFailResp : Resp :=
  ⟨500, .obj [("error", .str "Failed to delete user"),
              ("message", .str "An error occurred while deleting user account")]⟩

/-- Embedding of the GET user handler (routes/auth.js lines 186-206), run
with the gate's resolved identity. doc is the stored document for the
identity's uid (none when absent); getOk injects a Firestore read fault. -/
def getUserHandler (u : Identity) (doc : Option UserDoc) (getOk : Bool) :
    Resp × List CollabCall :=
  if getOk then
    match doc with
    | none => (userNotFoundResp, [.getDoc u.uid])
    | some d => (⟨200, .obj [("user", userDocToJs d)]⟩, [.getDoc u.uid])
  else
    (getUserFailResp, [CollabCall.getDoc u.uid])

/-- The updates object built by the update handler (routes/auth.js
lines 255-279): always the timestamp, plus exactly the supplied fields. -/
def buildUpdates (displayName photoURL bio : Option String)
    (preferences : Option Js) (now : String) : UpdateRec :=
  ⟨now, displayName, photoURL, bio, preferences⟩

/-- Semantics of the Firestore update call on a user document: each key
present in the updates object overwrites the corresponding (possibly
nested) field; every other field is untouched. -/
def applyUserUpdate (upd : UpdateRec) (d : UserDoc) : UserDoc :=
  { d with
    lastUpdatedAt := some upd.lastUpdatedAt
    displayName := match upd.displayName with
      | some v => some v
      | none => d.displayName
    photoURL := match upd.photoURL with
      | some v => some v
      | none => d.photoURL
    profile :=
      { bio := match upd.profileBio with
          | some v => v
          | none => d.profile.bio
        preferences := match upd.profilePreferences with
          | some v => v
          | none => d.profile.preferences } }

/-- Embedding of the PUT user handler (routes/auth.js lines 252-299). Body
fields are none when absent (undefined); doc is the stored document for the
identity's uid; updateUserOk and updateDocOk inject collaborator faults.
Returns the response, the resulting stored document, and the collaborator
calls made. -/
def putUserHandler (u : Identity) (displayName photoURL bio : Option String)
    (preferences : Option Js) (doc : UserDoc) (updateUserOk updateDocOk : Bool)
    (now : String) : Resp × UserDoc × List CollabCall :=
  let updates := buildUpdates displayName photoURL bio preferences now
  let needsAuthUpdate := displayName.isSome || photoURL.isSome
  let authCalls :=
    if needsAuthUpdate then [CollabCall.updateUser u.uid ⟨displayName, photoURL⟩]
    else []
  if needsAuthUpdate && !updateUserOk then
    (updateUserFailResp, doc, authCalls)
  else if !updateDocOk then
    (updateUserFailResp, doc, authCalls ++ [.updateDoc u.uid updates])
  else
    let newDoc := applyUserUpdate updates doc
    (⟨200, .obj [("message", .str "Profile updated successfully"),
                 ("user", userDocToJs newDoc)]⟩,
     newDoc, authCalls ++ [.updateDoc u.uid updates, .getDoc u.uid])

/-- Embedding of the DELETE user handler (routes/auth.js lines 325-343):
delete the Firestore document, then the auth principal; a fault in either
step yields the 500 deletion failure. -/
def deleteUserHandler (u : Identity) (deleteDocOk deleteUserOk : Bool) :
    Resp × List CollabCall :=
  if !deleteDocOk then
    (deleteUserFailResp, [CollabCall.deleteDoc u.uid])
  else if !deleteUserOk then
    (deleteUserFailResp, [.deleteDoc u.uid, .deleteUser u.uid])
  else
    (⟨200, .obj [("message", .str "Account deleted successfully")]⟩,
     [.deleteDoc u.uid, .deleteUser u.uid])

/-- The 400 response for a missing idToken (routes/auth.js lines 393-396). -/
def missingTokenResp : Resp :=
  ⟨400, .obj [("error", .str "Missing token"),
              ("message", .str "ID token is required")]⟩

/-- The 401 response of the verify-token endpoint (routes/auth.js
lines 410-414). -/
def verifyTokenInvalidResp : Resp :=
  ⟨401, .obj [("valid", .bool false),
              ("error", .str "Invalid token"),
              ("message", .str "The provided token is invalid or expired")]⟩

/-- The 500 response of the verify-token handler's outer catch
(routes/auth.js lines 418-421); reachable only by a failure outside the
inner try block around the verification call. -/
def verificationFailedResp : Resp :=
  ⟨500, .obj [("error", .str "Verification failed"),
              ("message", .str "An error occurred during token verification")]⟩

/-- Embedding of the POST verify-token handler (routes/auth.js
lines 388-423). The inner catch of the source catches every rejection of
the verification call, so both failure kinds map to the 401 response. -/
def verifyTokenHandler (idToken : Option String)
    (verify : String → VerifyOutcome) : Resp × List CollabCall :=
  if strFalsy idToken then
    (missingTokenResp, [])
  else
    let t := idToken.getD ""
    match verify t with
    | .ok d =>
      (⟨200, .obj [("valid", .bool true),
          ("user", .obj [("uid", .str d.uid),
                         ("email", jsOrUndef d.email),
                         ("emailVerified", .bool d.email_verified)])]⟩,
       [.verifyIdToken t])
    | .invalidToken => (verifyTokenInvalidResp, [.verifyIdToken t])
    | .transportFault => (verifyTokenInvalidResp, [.verifyIdToken t])

/-- The GET user route: the mandatory gate runs first; the handler runs only
when the gate proceeds (routes/auth.js line 186). -/
def routeGetUser (authHeader : Option String) (verify : String → VerifyOutcome)
    (doc : Option UserDoc) (getOk : Bool) : Resp × List CollabCall :=
  match verifyToken authHeader verify with
  | .reject r => (r, [])
  | .proceed u => getUserHandler u doc getOk

/-- The PUT user route: gate first, handler only on proceed
(routes/auth.js line 252). On rejection the stored document is unchanged. -/
def routePutUser (authHeader : Option String) (verify : String → VerifyOutcome)
    (displayName photoURL bio : Option String) (preferences : Option Js)
    (doc : UserDoc) (updateUserOk updateDocOk : Bool) (now : String) :
    Resp × UserDoc × List CollabCall :=
  match verifyToken authHeader verify with
  | .reject r => (r, doc, [])
  | .proceed u =>
    putUserHandler u displayName photoURL bio preferences doc
      updateUserOk updateDocOk now

/-- The DELETE user route: gate first, handler only on proceed
(routes/auth.js line 325). -/
def routeDeleteUser (authHeader : Option String)
    (verify : String → VerifyOutcome) (deleteDocOk deleteUserOk : Bool) :
    Resp × List CollabCall :=
  match verifyToken authHeader verify with
  | .reject r => (r, [])
  | .proceed u => deleteUserHandler u deleteDocOk deleteUserOk

/-- A concrete stored user document used to instantiate theorems. -/
def sampleDoc : UserDoc :=
  ⟨"uid1", some "a@b.c", none, none, false, "t0", "t0", ⟨"", .obj []⟩, none⟩

/-- A concrete resolved identity used to instantiate theorems. -/
def sampleIdentity : Identity :=
  ⟨"uid1", some "a@b.c", true, none, none⟩

/-- A collaborator createUser oracle that succeeds with a fixed fresh uid
and echoes the requested fields into the created record. -/
def sampleCreateUser (args : CreateArgs) : Except CreateErr UserRecord :=
  .ok ⟨"uid1", some args.email, args.displayName, args.photoURL,
       args.emailVerified⟩

/-- A failure response is well formed when, if its status is a failure
status, its body carries both the error short code and the human-readable
message field. -/
abbrev failureWellFormed (r : Resp) : Prop :=
  400 ≤ r.status → (r.body.hasField "error" = true ∧ r.body.hasField "message" = true)

/-- Claim C8: for every non-empty input string w (as a list of code units,
which covers strings containing multi-code-unit characters), applying the
reversal used by the palindrome endpoints twice returns w. -/
theorem reverseWord_involutive (w : JsStr) (h : w ≠ []) :
    reverseWord (reverseWord w) = w := by
  unfold reverseWord
  exact List.reverse_reverse w

/-- Witness for C8 at a concrete two-code-unit string (a surrogate pair,
i.e. a multi-code-unit character). -/
theorem reverseWord_involutive_witness :
    ([0xD83D, 0xDE00] : JsStr) ≠ [] ∧
      reverseWord (reverseWord [0xD83D, 0xDE00]) = [0xD83D, 0xDE00] :=
  ⟨by decide, reverseWord_involutive [0xD83D, 0xDE00] (by decide)⟩

/-- Claim C9: for every non-empty word w, the body form and path form of the
palindrome endpoint return the same success body with the original word and
its code units reversed; in particular GET palindrome of hello yields olleh. -/
theorem palindrome_body_path_agree (w : JsStr) (h : w ≠ []) :
    palindromePost (some w) = palindromeGet w ∧
      palindromeGet w
        = ⟨200, .obj [("original", .ustr w), ("palindrome", .ustr w.reverse)]⟩ ∧
      palindromeGet helloUnits
        = ⟨200, .obj [("original", .ustr helloUnits), ("palindrome", .ustr ollehUnits)]⟩ := by
  refine ⟨?_, rfl, rfl⟩
  unfold palindromePost palindromeGet
  simp [List.isEmpty_iff, h]

/-- Witness for C9 at the concrete word hello. -/
theorem palindrome_body_path_agree_witness :
    helloUnits ≠ [] ∧ palindromePost (some helloUnits) = palindromeGet helloUnits :=
  ⟨by decide, (palindrome_body_path_agree helloUnits (by decide)).1⟩

/-- Claim C1 (counterexample): with a Bearer header and a collaborator call
that fails with a transport-level, non-verification fault, the gate responds
with the 401 invalid-token response, not the 500 authentication-error
response the claim reserves for non-verification failures: the source's
inner catch swallows every rejection of the verification call. -/
theorem gate_transport_fault_is_401 :
    verifyToken (some "Bearer sometoken") (fun _ => .transportFault)
        = .reject invalidTokenResp ∧
    verifyToken (some "Bearer sometoken") (fun _ => .transportFault)
        ≠ .reject authErrorResp := by
  have hb : hasBearerMarker "Bearer sometoken" = true := by decide
  have heq : verifyToken (some "Bearer sometoken") (fun _ => .transportFault)
      = .reject invalidTokenResp := by
    simp [verifyToken, hb]
  refine ⟨heq, ?_⟩
  rw [heq]
  simp [invalidTokenResp, authErrorResp]

/-- Claim C1 (amended): the mandatory gate yields exactly one of three
outcomes: a missing or non-Bearer header rejects 401 no-token and the
collaborator is never consulted for it; a Bearer header whose verification
call fails for any reason, transport faults included, rejects 401
invalid-token; a successful verification proceeds with the resolved
identity; and no header and collaborator outcome reaches the 500
authentication-error response, which is reserved for failures outside the
verification call. -/
theorem gate_outcomes (authHeader : Option String)
    (verify : String → VerifyOutcome) :
    ((authHeader = none ∨ ∃ h, authHeader = some h ∧ hasBearerMarker h = false) →
        verifyToken authHeader verify = .reject noTokenResp) ∧
    (∀ h, authHeader = some h → hasBearerMarker h = true →
        (∀ d, verify (bearerToken h) ≠ .ok d) →
        verifyToken authHeader verify = .reject invalidTokenResp) ∧
    (∀ h d, authHeader = some h → hasBearerMarker h = true →
        verify (bearerToken h) = .ok d →
        verifyToken authHeader verify = .proceed (identityOf d)) ∧
    verifyToken authHeader verify ≠ .reject authErrorResp := by
  refine ⟨?_, ?_, ?_, ?_⟩
  · rintro (hnone | ⟨h, hsome, hb⟩)
    · subst hnone; rfl
    · subst hsome; simp [verifyToken, hb]
  · intro h hsome hb hfail
    subst hsome
    simp only [verifyToken, hb, if_true]
    cases hv : verify (bearerToken h) with
    | ok d => exact absurd hv (hfail d)
    | invalidToken => rfl
    | transportFault => rfl
  · intro h d hsome hb hok
    subst hsome
    simp only [verifyToken, hb, if_true]
    rw [hok]
  · cases authHeader with
    | none =>
      simp [verifyToken, noTokenResp, authErrorResp]
    | some h =>
      by_cases hb : hasBearerMarker h
      · simp only [verifyToken, hb, if_true]
        cases verify (bearerToken h) <;>
          simp [invalidTokenResp, authErrorResp]
      · simp only [verifyToken, hb, if_false]
        simp [noTokenResp, authErrorResp]

/-- Witness for C1 amended: a header with a non-Bearer scheme marker is
rejected with the no-token response. -/
theorem gate_outcomes_witness :
    verifyToken (some "Token abc") (fun _ => .invalidToken)
      = .reject noTokenResp :=
  (gate_outcomes (some "Token abc") (fun _ => .invalidToken)).1
    (Or.inr ⟨"Token abc", rfl, by decide⟩)

/-- Claim C2: for the three protected user routes, the handler's business
logic executes only when the gate attached a resolved identity: whenever
the gate rejects, the route's result is the gate's response with no
collaborator call on behalf of the handler and no handler response, and
the stored document is untouched; whenever the gate proceeds with an
identity, the route is exactly the handler applied to that identity. -/
theorem protected_routes_require_identity (authHeader : Option String)
    (verify : String → VerifyOutcome) (doc : Option UserDoc) (getOk : Bool)
    (displayName photoURL bio : Option String) (preferences : Option Js)
    (pdoc : UserDoc) (updateUserOk updateDocOk : Bool) (now : String)
    (deleteDocOk deleteUserOk : Bool) :
    (∀ r, verifyToken authHeader verify = .reject r →
      routeGetUser authHeader verify doc getOk = (r, []) ∧
      routePutUser authHeader verify displayName photoURL bio preferences
          pdoc updateUserOk updateDocOk now = (r, pdoc, []) ∧
      routeDeleteUser authHeader verify deleteDocOk deleteUserOk = (r, [])) ∧
    (∀ u, verifyToken authHeader verify = .proceed u →
      routeGetUser authHeader verify doc getOk = getUserHandler u doc getOk ∧
      routePutUser authHeader verify displayName photoURL bio preferences
          pdoc updateUserOk updateDocOk now
        = putUserHandler u displayName photoURL bio preferences pdoc
            updateUserOk updateDocOk now ∧
      routeDeleteUser authHeader verify deleteDocOk deleteUserOk
        = deleteUserHandler u deleteDocOk deleteUserOk) := by
  constructor
  · intro r hr
    refine ⟨?_, ?_, ?_⟩ <;>
      simp [routeGetUser, routePutUser, routeDeleteUser, hr]
  · intro u hu
    refine ⟨?_, ?_, ?_⟩ <;>
      simp [routeGetUser, routePutUser, routeDeleteUser, hu]

/-- Witness for C2 with no Authorization header: the gate rejects with the
no-token response and the GET user route returns it with no collaborator
calls made on behalf of the handler. -/
theorem protected_routes_require_identity_witness :
    routeGetUser none (fun _ => .invalidToken) none true = (noTokenResp, []) :=
  ((protected_routes_require_identity none (fun _ => .invalidToken) none true
      none none none none sampleDoc true true "t1" true true).1
    noTokenResp rfl).1

/-- Claim C3: registration validation runs before any collaborator call: a
missing or empty email or password yields the 400 missing-fields response
with no collaborator call; a password shorter than 6 characters yields the
400 password-too-short response with no collaborator call; and a password
of length exactly 6 passes validation, the handler's first collaborator
call being the principal creation. -/
theorem register_validation_first
    (email password displayName photoURL : Option String)
    (createUser : CreateArgs → Except CreateErr UserRecord)
    (setDocOk : Bool) (now : String) :
    ((strFalsy email || strFalsy password) = true →
      registerHandler email password displayName photoURL createUser setDocOk now
        = (missingFieldsResp, [])) ∧
    (strFalsy email = false → strFalsy password = false →
      (password.getD "").length < 6 →
      registerHandler email password displayName photoURL createUser setDocOk now
        = (passwordTooShortResp, [])) ∧
    (strFalsy email = false → strFalsy password = false →
      (password.getD "").length = 6 →
      (registerHandler email password displayName photoURL createUser setDocOk now).2.head?
        = some (.createUser (regArgs email password displayName photoURL))) := by
  refine ⟨?_, ?_, ?_⟩
  · intro hfal
    simp [registerHandler, hfal]
  · intro he hp hlen
    simp [registerHandler, he, hp, hlen]
  · intro he hp hlen
    have h6 : ¬ (password.getD "").length < 6 := by omega
    cases hcu : createUser (regArgs email password displayName photoURL) with
    | error e => cases e <;> simp [registerHandler, he, hp, h6, hcu]
    | ok urec => cases setDocOk <;> simp [registerHandler, he, hp, h6, hcu]

/-- Witness for C3: a length-5 password is rejected with the
password-too-short response and no collaborator call. -/
theorem register_validation_first_witness :
    registerHandler (some "a@b.c") (some "12345") none none
        (fun _ => .error .otherFault) true "t2"
      = (passwordTooShortResp, []) :=
  (register_validation_first (some "a@b.c") (some "12345") none none
      (fun _ => .error .otherFault) true "t2").2.1 (by decide) (by decide)
    (by decide)

/-- Claim C4: for a registration passing validation, an
email-already-exists failure of principal creation yields the 409
user-exists response with no profile-document write; any other failure of
principal creation yields the 500 registration failure; a failure of the
subsequent document write also yields the 500 registration failure; and on
a successful creation the collaborator calls are exactly the principal
creation followed by the profile-document write. -/
theorem register_conflict_and_order
    (email password displayName photoURL : Option String)
    (createUser : CreateArgs → Except CreateErr UserRecord)
    (setDocOk : Bool) (now : String)
    (hve : strFalsy email = false) (hvp : strFalsy password = false)
    (hlen : ¬ (password.getD "").length < 6) :
    (createUser (regArgs email password displayName photoURL)
        = .error .emailAlreadyExists →
      registerHandler email password displayName photoURL createUser setDocOk now
        = (userExistsResp,
           [.createUser (regArgs email password displayName photoURL)])) ∧
    (createUser (regArgs email password displayName photoURL)
        = .error .otherFault →
      registerHandler email password displayName photoURL createUser setDocOk now
        = (registrationFailedResp,
           [.createUser (regArgs email password displayName photoURL)])) ∧
    (∀ urec, createUser (regArgs email password displayName photoURL) = .ok urec →
      setDocOk = false →
      registerHandler email password displayName photoURL createUser setDocOk now
        = (registrationFailedResp,
           [.createUser (regArgs email password displayName photoURL),
            .setDoc urec.uid (regDoc displayName photoURL urec now)])) ∧
    (∀ urec, createUser (regArgs email password displayName photoURL) = .ok urec →
      (registerHandler email password displayName photoURL createUser setDocOk now).2
        = [.createUser (regArgs email password displayName photoURL),
           .setDoc urec.uid (regDoc displayName photoURL urec now)]) := by
  refine ⟨?_, ?_, ?_, ?_⟩
  · intro hcu
    simp [registerHandler, hve, hvp, hlen, hcu]
  · intro hcu
    simp [registerHandler, hve, hvp, hlen, hcu]
  · intro urec hcu hset
    subst hset
    simp [registerHandler, hve, hvp, hlen, hcu]
  · intro urec hcu
    cases setDocOk <;> simp [registerHandler, hve, hvp, hlen, hcu]

/-- Witness for C4: registering an already-registered email returns the 409
user-exists response and no document write. -/
theorem register_conflict_and_order_witness :
    registerHandler (some "a@b.c") (some "123456") none none
        (fun _ => .error .emailAlreadyExists) true "t3"
      = (userExistsResp,
         [.createUser (regArgs (some "a@b.c") (some "123456") none none)]) :=
  (register_conflict_and_order (some "a@b.c") (some "123456") none none
      (fun _ => .error .emailAlreadyExists) true "t3"
      (by decide) (by decide) (by decide)).1 rfl

/-- Claim C10 (counterexample): registering with displayName supplied as
the empty string does not pass it through unchanged: the or-undefined and
or-null coercions drop it, so the principal is created with no display
name and the stored document holds null rather than the empty string. -/
theorem register_empty_displayName_coerced :
    (registerHandler (some "a@b.c") (some "123456") (some "") none
        sampleCreateUser true "t3").2
      = [CollabCall.createUser ⟨"a@b.c", "123456", none, none, false⟩,
         CollabCall.setDoc "uid1"
           ⟨"uid1", some "a@b.c", none, none, false, "t3", "t3",
            ⟨"", Js.obj []⟩, none⟩] ∧
    (none : Option String) ≠ some "" := by
  constructor
  · rfl
  · simp

/-- Claim C10 (amended): for a registration that succeeds, the collaborator
calls carry the built principal arguments and document; a supplied
non-empty displayName or photoURL passes through unchanged to both; an
absent value is stored as undefined on the principal and null in the
document; and a supplied empty string is coerced exactly like an absent
value. -/
theorem register_passthrough
    (email password displayName photoURL : Option String)
    (createUser : CreateArgs → Except CreateErr UserRecord)
    (now : String) (urec : UserRecord)
    (hve : strFalsy email = false) (hvp : strFalsy password = false)
    (hlen : ¬ (password.getD "").length < 6)
    (hok : createUser (regArgs email password displayName photoURL) = .ok urec) :
    (registerHandler email password displayName photoURL createUser true now).2
      = [.createUser (regArgs email password displayName photoURL),
         .setDoc urec.uid (regDoc displayName photoURL urec now)] ∧
    (∀ v : String, v ≠ "" →
      (regArgs email password (some v) photoURL).displayName = some v ∧
      (regDoc (some v) photoURL urec now).displayName = some v ∧
      (regArgs email password displayName (some v)).photoURL = some v ∧
      (regDoc displayName (some v) urec now).photoURL = some v) ∧
    ((regArgs email password none photoURL).displayName = none ∧
     (regDoc none photoURL urec now).displayName = none ∧
     (regArgs email password displayName none).photoURL = none ∧
     (regDoc displayName none urec now).photoURL = none) ∧
    ((regArgs email password (some "") photoURL).displayName = none ∧
     (regDoc (some "") photoURL urec now).displayName = none) := by
  refine ⟨?_, ?_, ?_, ?_⟩
  · simp [registerHandler, hve, hvp, hlen, hok]
  · intro v hv
    have hne : v.isEmpty = false := by
      cases hempty : v.isEmpty
      · rfl
      · exact absurd ((String.isEmpty_iff v).mp hempty) hv
    refine ⟨?_, ?_, ?_, ?_⟩ <;>
      simp [regArgs, regDoc, falsyToNone, strFalsy, hne]
  · refine ⟨?_, ?_, ?_, ?_⟩ <;> simp [regArgs, regDoc, falsyToNone, strFalsy]
  · refine ⟨?_, ?_⟩ <;> simp [regArgs, regDoc, falsyToNone, strFalsy] <;> decide

/-- Witness for C10 amended: a registration with a non-empty display name
passes it through to the principal-creation call and the written document. -/
theorem register_passthrough_witness :
    (registerHandler (some "a@b.c") (some "123456") (some "Jo") none
        sampleCreateUser true "t6").2
      = [.createUser (regArgs (some "a@b.c") (some "123456") (some "Jo") none),
         .setDoc "uid1"
           (regDoc (some "Jo") none
             ⟨"uid1", some "a@b.c", some "Jo", none, false⟩ "t6")] :=
  (register_passthrough (some "a@b.c") (some "123456") (some "Jo") none
      sampleCreateUser "t6" ⟨"uid1", some "a@b.c", some "Jo", none, false⟩
      (by decide) (by decide) (by decide) rfl).1

/-- Claim C5: for an authenticated profile update whose collaborator calls
succeed, the handler returns 200, the stored document becomes the old
document with exactly the supplied subset of displayName, photoURL, bio
and preferences overwritten plus the last-updated timestamp, every other
field unchanged, and the authentication principal is updated exactly when
displayName or photoURL was supplied. -/
theorem update_profile_frame (u : Identity)
    (displayName photoURL bio : Option String) (preferences : Option Js)
    (doc : UserDoc) (now : String) :
    putUserHandler u displayName photoURL bio preferences doc true true now
      = (⟨200, .obj [("message", .str "Profile updated successfully"),
           ("user", userDocToJs (applyUserUpdate
             (buildUpdates displayName photoURL bio preferences now) doc))]⟩,
         applyUserUpdate (buildUpdates displayName photoURL bio preferences now) doc,
         (if displayName.isSome || photoURL.isSome then
            [CollabCall.updateUser u.uid ⟨displayName, photoURL⟩]
          else [])
           ++ [.updateDoc u.uid (buildUpdates displayName photoURL bio preferences now),
               .getDoc u.uid]) ∧
    (applyUserUpdate (buildUpdates displayName photoURL bio preferences now) doc).uid
      = doc.uid ∧
    (applyUserUpdate (buildUpdates displayName photoURL bio preferences now) doc).email
      = doc.email ∧
    (applyUserUpdate (buildUpdates displayName photoURL bio preferences now) doc).emailVerified
      = doc.emailVerified ∧
    (applyUserUpdate (buildUpdates displayName photoURL bio preferences now) doc).createdAt
      = doc.createdAt ∧
    (applyUserUpdate (buildUpdates displayName photoURL bio preferences now) doc).lastLoginAt
      = doc.lastLoginAt ∧
    (applyUserUpdate (buildUpdates displayName photoURL bio preferences now) doc).lastUpdatedAt
      = some now ∧
    (displayName = none →
      (applyUserUpdate (buildUpdates displayName photoURL bio preferences now) doc).displayName
        = doc.displayName) ∧
    (∀ v, displayName = some v →
      (applyUserUpdate (buildUpdates displayName photoURL bio preferences now) doc).displayName
        = some v) ∧
    (photoURL = none →
      (applyUserUpdate (buildUpdates displayName photoURL bio preferences now) doc).photoURL
        = doc.photoURL) ∧
    (∀ v, photoURL = some v →
      (applyUserUpdate (buildUpdates displayName photoURL bio preferences now) doc).photoURL
        = some v) ∧
    (bio = none →
      (applyUserUpdate (buildUpdates displayName photoURL bio preferences now) doc).profile.bio
        = doc.profile.bio) ∧
    (∀ v, bio = some v →
      (applyUserUpdate (buildUpdates displayName photoURL bio preferences now) doc).profile.bio
        = v) ∧
    (preferences = none →
      (applyUserUpdate (buildUpdates displayName photoURL bio preferences now) doc).profile.preferences
        = doc.profile.preferences) ∧
    (∀ p, preferences = some p →
      (applyUserUpdate (buildUpdates displayName photoURL bio preferences now) doc).profile.preferences
        = p) := by
  refine ⟨?_, rfl, rfl, rfl, rfl, rfl, rfl,
    ?_, ?_, ?_, ?_, ?_, ?_, ?_, ?_⟩
  · simp [putUserHandler]
  · intro hd; rw [hd]; rfl
  · intro v hd; rw [hd]; rfl
  · intro hp; rw [hp]; rfl
  · intro v hp; rw [hp]; rfl
  · intro hb; rw [hb]; rfl
  · intro v hb; rw [hb]; rfl
  · intro hq; rw [hq]; rfl
  · intro p hq; rw [hq]; rfl

/-- Witness for C5: an update supplying only bio sets the nested bio and
leaves displayName and photoURL unchanged. -/
theorem update_profile_frame_witness :
    (applyUserUpdate (buildUpdates none none (some "x") none "t4") sampleDoc).profile.bio
        = "x" ∧
    (applyUserUpdate (buildUpdates none none (some "x") none "t4") sampleDoc).displayName
        = sampleDoc.displayName ∧
    (applyUserUpdate (buildUpdates none none (some "x") none "t4") sampleDoc).photoURL
        = sampleDoc.photoURL := by
  obtain ⟨-, -, -, -, -, -, -, hdn, -, hpu, -, -, hbio, -, -⟩ :=
    update_profile_frame sampleIdentity none none (some "x") none sampleDoc "t4"
  exact ⟨hbio "x" rfl, hdn rfl, hpu rfl⟩

/-- Claim C6: the verify-token endpoint yields the 400 missing-token
response for a missing or empty token with no collaborator call, the 401
valid-false response for a token whose verification call fails for any
reason, the 200 valid-true response with the uid, email and email-verified
subset for a token that verifies, and never a 500 status for any input and
collaborator outcome. -/
theorem verify_token_endpoint (idToken : Option String)
    (verify : String → VerifyOutcome) :
    (strFalsy idToken = true →
      verifyTokenHandler idToken verify = (missingTokenResp, [])) ∧
    (strFalsy idToken = false → (∀ d, verify (idToken.getD "") ≠ .ok d) →
      verifyTokenHandler idToken verify
        = (verifyTokenInvalidResp, [.verifyIdToken (idToken.getD "")])) ∧
    (∀ d, strFalsy idToken = false → verify (idToken.getD "") = .ok d →
      verifyTokenHandler idToken verify
        = (⟨200, .obj [("valid", .bool true),
            ("user", .obj [("uid", .str d.uid), ("email", jsOrUndef d.email),
                           ("emailVerified", .bool d.email_verified)])]⟩,
           [.verifyIdToken (idToken.getD "")])) ∧
    (verifyTokenHandler idToken verify).1.status ≠ 500 := by
  refine ⟨?_, ?_, ?_, ?_⟩
  · intro hf
    simp [verifyTokenHandler, hf]
  · intro hf hfail
    cases hv : verify (idToken.getD "") with
    | ok d => exact absurd hv (hfail d)
    | invalidToken => simp [verifyTokenHandler, hf, hv]
    | transportFault => simp [verifyTokenHandler, hf, hv]
  · intro d hf hok
    simp [verifyTokenHandler, hf, hok]
  · by_cases hf : strFalsy idToken = true
    · simp [verifyTokenHandler, hf, missingTokenResp]
    · have hf' : strFalsy idToken = false := by
        cases hc : strFalsy idToken
        · rfl
        · exact absurd hc hf
      cases hv : verify (idToken.getD "") <;>
        simp [verifyTokenHandler, hf', hv, verifyTokenInvalidResp]

/-- Witness for C6: a concrete token whose verification call fails yields
the 401 valid-false response. -/
theorem verify_token_endpoint_witness :
    verifyTokenHandler (some "tok") (fun _ => .invalidToken)
      = (verifyTokenInvalidResp, [.verifyIdToken "tok"]) :=
  (verify_token_endpoint (some "tok") (fun _ => .invalidToken)).2.1
    (by decide) (fun d hd => by cases hd)

/-- Every rejection of the mandatory gate is one of its two 401 responses. -/
theorem gate_reject_cases (authHeader : Option String)
    (verify : String → VerifyOutcome) (r : Resp)
    (hr : verifyToken authHeader verify = .reject r) :
    r = noTokenResp ∨ r = invalidTokenResp := by
  cases authHeader with
  | none =>
    injection hr with h2
    exact Or.inl h2.symm
  | some h =>
    by_cases hb : hasBearerMarker h = true
    · simp only [verifyToken, hb, if_true] at hr
      cases hv : verify (bearerToken h) <;> rw [hv] at hr
      · cases hr
      · injection hr with h2
        exact Or.inr h2.symm
      · injection hr with h2
        exact Or.inr h2.symm
    · have hb2 : hasBearerMarker h = false := by
        cases hc : hasBearerMarker h
        · rfl
        · exact absurd hc hb
      simp only [verifyToken, hb2, Bool.false_eq_true, if_false] at hr
      injection hr with h2
      exact Or.inl h2.symm

/-- The register handler's response is one of its four failure envelopes or
a 201 success. -/
theorem registerResp_cases (email password displayName photoURL : Option String)
    (createUser : CreateArgs → Except CreateErr UserRecord)
    (setDocOk : Bool) (now : String) :
    (registerHandler email password displayName photoURL createUser setDocOk now).1
        = missingFieldsResp ∨
    (registerHandler email password displayName photoURL createUser setDocOk now).1
        = passwordTooShortResp ∨
    (registerHandler email password displayName photoURL createUser setDocOk now).1
        = userExistsResp ∨
    (registerHandler email password displayName photoURL createUser setDocOk now).1
        = registrationFailedResp ∨
    (registerHandler email password displayName photoURL createUser setDocOk now).1.status
        = 201 := by
  unfold registerHandler
  split
  · simp
  · split
    · simp
    · cases hcu : createUser (regArgs email password displayName photoURL) with
      | error e => cases e <;> simp [hcu]
      | ok urec => cases setDocOk <;> simp [hcu]

/-- The get-user handler's response is a failure envelope or a 200 success. -/
theorem getUserResp_cases (u : Identity) (doc : Option UserDoc) (getOk : Bool) :
    (getUserHandler u doc getOk).1 = getUserFailResp ∨
    (getUserHandler u doc getOk).1 = userNotFoundResp ∨
    (getUserHandler u doc getOk).1.status = 200 := by
  unfold getUserHandler
  split
  · split
    · exact Or.inr (Or.inl rfl)
    · exact Or.inr (Or.inr rfl)
  · exact Or.inl rfl

/-- The update-user handler's response is its failure envelope or a 200
success. -/
theorem putUserResp_cases (u : Identity)
    (displayName photoURL bio : Option String) (preferences : Option Js)
    (pdoc : UserDoc) (updateUserOk updateDocOk : Bool) (now : String) :
    (putUserHandler u displayName photoURL bio preferences pdoc
        updateUserOk updateDocOk now).1 = updateUserFailResp ∨
    (putUserHandler u displayName photoURL bio preferences pdoc
        updateUserOk updateDocOk now).1.status = 200 := by
  cases h1 : (displayName.isSome || photoURL.isSome) && !updateUserOk with
  | true => simp [putUserHandler, h1]
  | false =>
    cases h2 : !updateDocOk with
    | true => simp [putUserHandler, h1, h2]
    | false => simp [putUserHandler, h1, h2]

/-- The delete-user handler's response is its failure envelope or a 200
success. -/
theorem deleteUserResp_cases (u : Identity) (deleteDocOk deleteUserOk : Bool) :
    (deleteUserHandler u deleteDocOk deleteUserOk).1 = deleteUserFailResp ∨
    (deleteUserHandler u deleteDocOk deleteUserOk).1.status = 200 := by
  unfold deleteUserHandler
  split
  · exact Or.inl rfl
  · split
    · exact Or.inl rfl
    · exact Or.inr rfl

/-- The verify-token handler's response is one of its two failure envelopes
or a 200 success. -/
theorem verifyTokenResp_cases (idToken : Option String)
    (verify : String → VerifyOutcome) :
    (verifyTokenHandler idToken verify).1 = missingTokenResp ∨
    (verifyTokenHandler idToken verify).1 = verifyTokenInvalidResp ∨
    (verifyTokenHandler idToken verify).1.status = 200 := by
  cases hf : strFalsy idToken with
  | true => simp [verifyTokenHandler, hf]
  | false =>
    cases hv : verify (idToken.getD "") with
    | ok d => simp [verifyTokenHandler, hf, hv]
    | invalidToken => simp [verifyTokenHandler, hf, hv]
    | transportFault => simp [verifyTokenHandler, hf, hv]

/-- Claim C7 (counterexample): the POST palindrome 400 response and the
global error handler's 500 response are failure responses whose bodies
carry an error short code but no message string, so not every failure
response contains both. -/
theorem palindrome_400_lacks_message :
    (palindromePost none).status = 400 ∧
    (palindromePost none).body.hasField "error" = true ∧
    (palindromePost none).body.hasField "message" = false ∧
    errorHandler.status = 500 ∧
    errorHandler.body.hasField "error" = true ∧
    errorHandler.body.hasField "message" = false := by
  decide

/-- Claim C7 (amended): every failure response emitted by the modeled auth
middleware and auth route handlers carries both an error short code and a
message string; the two exceptions forced by the source are the POST
palindrome 400 response and the global error handler's 500 response, whose
bodies carry error but no message; the GET palindrome route emits no
failure response. -/
theorem failure_envelope (authHeader : Option String)
    (gverify tverify : String → VerifyOutcome)
    (email password displayName photoURL : Option String)
    (createUser : CreateArgs → Except CreateErr UserRecord)
    (setDocOk : Bool) (now : String)
    (u : Identity) (doc : Option UserDoc) (getOk : Bool)
    (bio : Option String) (preferences : Option Js) (pdoc : UserDoc)
    (updateUserOk updateDocOk deleteDocOk deleteUserOk : Bool)
    (idToken : Option String) (word : Option JsStr) (pword : JsStr) :
    (∀ r, verifyToken authHeader gverify = .reject r → failureWellFormed r) ∧
    failureWellFormed authErrorResp ∧
    failureWellFormed
      (registerHandler email password displayName photoURL createUser setDocOk now).1 ∧
    failureWellFormed (getUserHandler u doc getOk).1 ∧
    failureWellFormed
      (putUserHandler u displayName photoURL bio preferences pdoc
        updateUserOk updateDocOk now).1 ∧
    failureWellFormed (deleteUserHandler u deleteDocOk deleteUserOk).1 ∧
    failureWellFormed (verifyTokenHandler idToken tverify).1 ∧
    failureWellFormed verificationFailedResp ∧
    (400 ≤ (palindromePost word).status →
      ((palindromePost word).body.hasField "error" = true ∧
       (palindromePost word).body.hasField "message" = false)) ∧
    (errorHandler.body.hasField "error" = true ∧
     errorHandler.body.hasField "message" = false) ∧
    (palindromeGet pword).status = 200 := by
  refine ⟨?_, by decide, ?_, ?_, ?_, ?_, ?_, by decide, ?_, by decide, rfl⟩
  · intro r hr
    rcases gate_reject_cases authHeader gverify r hr with h | h <;> subst h <;> decide
  · rcases registerResp_cases email password displayName photoURL createUser
        setDocOk now with h | h | h | h | h
    · rw [h]; decide
    · rw [h]; decide
    · rw [h]; decide
    · rw [h]; decide
    · intro hge; rw [h] at hge; omega
  · rcases getUserResp_cases u doc getOk with h | h | h
    · rw [h]; decide
    · rw [h]; decide
    · intro hge; rw [h] at hge; omega
  · rcases putUserResp_cases u displayName photoURL bio preferences pdoc
        updateUserOk updateDocOk now with h | h
    · rw [h]; decide
    · intro hge; rw [h] at hge; omega
  · rcases deleteUserResp_cases u deleteDocOk deleteUserOk with h | h
    · rw [h]; decide
    · intro hge; rw [h] at hge; omega
  · rcases verifyTokenResp_cases idToken tverify with h | h | h
    · rw [h]; decide
    · rw [h]; decide
    · intro hge; rw [h] at hge; omega
  · cases word with
    | none => intro hge; decide
    | some w =>
      by_cases hw : w.isEmpty = true
      · intro hge
        simp only [palindromePost, hw, if_true]
        decide
      · have hw2 : w.isEmpty = false := by
          cases hc : w.isEmpty
          · rfl
          · exact absurd hc hw
        intro hge
        simp only [palindromePost, hw2, Bool.false_eq_true, if_false] at hge
        exact absurd hge (by decide)

/-- Witness for C7 amended: the gate's no-token rejection carries both the
error code and the message. -/
theorem failure_envelope_witness :
    noTokenResp.body.hasField "error" = true ∧
    noTokenResp.body.hasField "message" = true :=
  ((failure_envelope none (fun _ => .invalidToken) (fun _ => .invalidToken)
      none none none none (fun _ => .error .otherFault) true "t5"
      sampleIdentity none true none none sampleDoc true true true true
      none none []).1 noTokenResp rfl) (by decide)
